import Mathlib

/-!
Shallow embedding of the Solid-Hexagon physics core.

Sources:
- src/src/physics/Vector2D.ts : the Vector2D class and the PhysicsEngine class
  (the physics engine is appended to the same file in this snapshot).
- src/README.md (appended hexagon utility module) : createHexagon, rotateHexagon,
  distanceToEdge, circleHexagonCollision.

JavaScript floating point numbers are modelled as real numbers; Math.random() draws
are modelled as explicit real parameters threaded to the operations that consume them.
Field and function names follow the source; the source field named end is rendered
as endp because end is a Lean keyword.
-/

noncomputable section

/-- 2D vector, from the Vector2D class (src/src/physics/Vector2D.ts). -/
@[ext]
structure Vector2D where
  x : ℝ
  y : ℝ
deriving DecidableEq

namespace Vector2D

/-- Vector addition (Vector2D.add). -/
def add (v other : Vector2D) : Vector2D := ⟨v.x + other.x, v.y + other.y⟩

/-- Vector subtraction (Vector2D.subtract). -/
def subtract (v other : Vector2D) : Vector2D := ⟨v.x - other.x, v.y - other.y⟩

/-- Scalar multiplication (Vector2D.multiply). -/
def multiply (v : Vector2D) (scalar : ℝ) : Vector2D := ⟨v.x * scalar, v.y * scalar⟩

/-- Scalar division (Vector2D.divide). -/
def divide (v : Vector2D) (scalar : ℝ) : Vector2D := ⟨v.x / scalar, v.y / scalar⟩

/-- Dot product (Vector2D.dot). -/
def dot (v other : Vector2D) : ℝ := v.x * other.x + v.y * other.y

/-- Vector length (Vector2D.magnitude). -/
def magnitude (v : Vector2D) : ℝ := Real.sqrt (v.x * v.x + v.y * v.y)

/-- Squared vector length (Vector2D.magnitudeSquared). -/
def magnitudeSquared (v : Vector2D) : ℝ := v.x * v.x + v.y * v.y

/-- Unit vector; the zero vector normalizes to the zero vector (Vector2D.normalize). -/
def normalize (v : Vector2D) : Vector2D :=
  if v.magnitude = 0 then ⟨0, 0⟩ else v.divide v.magnitude

/-- Euclidean distance (Vector2D.distance). -/
def distance (v other : Vector2D) : ℝ :=
  Real.sqrt ((v.x - other.x) * (v.x - other.x) + (v.y - other.y) * (v.y - other.y))

end Vector2D

/-- One hexagon edge with its inward normal (HexagonEdge in the hexagon module).
The source field end is rendered endp. -/
structure HexagonEdge where
  start : Vector2D
  endp : Vector2D
  normal : Vector2D
deriving DecidableEq

/-- Hexagon value (Hexagon in the hexagon module). -/
structure Hexagon where
  center : Vector2D
  radius : ℝ
  vertices : List Vector2D
  edges : List HexagonEdge
  rotation : ℝ

/-- Angle of vertex k in createHexagon: (i * Math.PI) / 3 + rotation. -/
def hexAngle (k : ℕ) (rotation : ℝ) : ℝ := (k * Real.pi) / 3 + rotation

/-- Vertex k pushed by the createHexagon loop. -/
def hexVertex (center : Vector2D) (radius rotation : ℝ) (k : ℕ) : Vector2D :=
  ⟨center.x + radius * Real.cos (hexAngle k rotation),
   center.y + radius * Real.sin (hexAngle k rotation)⟩

/-- Edge k built by the createHexagon loop: start = vertices[i],
end = vertices[(i+1) % 6], normal = normalized left perpendicular of the edge vector. -/
def hexEdgeOf (center : Vector2D) (radius rotation : ℝ) (k : ℕ) : HexagonEdge :=
  let s := hexVertex center radius rotation k
  let e := hexVertex center radius rotation ((k + 1) % 6)
  let edgeVector := e.subtract s
  { start := s, endp := e, normal := (Vector2D.mk (-edgeVector.y) edgeVector.x).normalize }

/-- createHexagon from the hexagon module (rotation defaults to 0 in the source). -/
def createHexagon (center : Vector2D) (radius : ℝ) (rotation : ℝ) : Hexagon :=
  { center := center
    radius := radius
    vertices := (List.range 6).map (hexVertex center radius rotation)
    edges := (List.range 6).map (hexEdgeOf center radius rotation)
    rotation := rotation }

/-- rotateHexagon from the hexagon module. -/
def rotateHexagon (hexagon : Hexagon) (deltaRotation : ℝ) : Hexagon :=
  createHexagon hexagon.center hexagon.radius (hexagon.rotation + deltaRotation)

/-- Return value of distanceToEdge. -/
structure DistanceResult where
  distance : ℝ
  closestPoint : Vector2D
  isOnSegment : Bool
deriving DecidableEq

/-- distanceToEdge from the hexagon module.  Note that the source computes the
isOnSegment flag from the already clamped parameter t. -/
def distanceToEdge (point edgeStart edgeEnd : Vector2D) : DistanceResult :=
  let edgeVector := edgeEnd.subtract edgeStart
  let pointVector := point.subtract edgeStart
  let edgeLengthSquared := edgeVector.magnitudeSquared
  if edgeLengthSquared = 0 then
    { distance := point.distance edgeStart, closestPoint := edgeStart, isOnSegment := true }
  else
    let t := max 0 (min 1 (pointVector.dot edgeVector / edgeLengthSquared))
    let closestPoint := edgeStart.add (edgeVector.multiply t)
    { distance := point.distance closestPoint
      closestPoint := closestPoint
      isOnSegment := decide (t ≥ 0 ∧ t ≤ 1) }

/-- Return value of circleHexagonCollision; the optional fields are absent in the
non-colliding return. -/
structure CollisionResult where
  isColliding : Bool
  collisionEdge : Option HexagonEdge
  collisionPoint : Option Vector2D
  penetrationDepth : Option ℝ

/-- One iteration of the closest-edge scan loop of circleHexagonCollision. -/
def scanStep (circleCenter : Vector2D) (best : Option (HexagonEdge × ℝ × Vector2D))
    (edge : HexagonEdge) : Option (HexagonEdge × ℝ × Vector2D) :=
  let result := distanceToEdge circleCenter edge.start edge.endp
  match best with
  | none => some (edge, result.distance, result.closestPoint)
  | some (_, d, _) =>
      if result.distance < d then some (edge, result.distance, result.closestPoint) else best

/-- The closest-edge scan loop of circleHexagonCollision.  The accumulator none
models the initial state closestEdge = null / closestDistance = Infinity (a finite
distance always beats Infinity, which is exactly the none case below). -/
def closestEdgeScan (circleCenter : Vector2D) (edges : List HexagonEdge) :
    Option (HexagonEdge × ℝ × Vector2D) :=
  edges.foldl (scanStep circleCenter) none

/-- circleHexagonCollision from the hexagon module. -/
def circleHexagonCollision (circleCenter : Vector2D) (radius : ℝ) (hexagon : Hexagon) :
    CollisionResult :=
  match closestEdgeScan circleCenter hexagon.edges with
  | some (edge, d, p) =>
      if d ≤ radius then
        { isColliding := true, collisionEdge := some edge, collisionPoint := some p
          penetrationDepth := some (radius - d) }
      else
        { isColliding := false, collisionEdge := none, collisionPoint := none
          penetrationDepth := none }
  | none =>
      { isColliding := false, collisionEdge := none, collisionPoint := none
        penetrationDepth := none }

/-- PhysicsConfig (src/src/physics/Vector2D.ts, engine part). -/
structure PhysicsConfig where
  gravity : ℝ
  friction : ℝ
  restitution : ℝ
  rotationSpeed : ℝ
  ballRadius : ℝ
  maxVelocity : ℝ

/-- BallState (src/src/physics/Vector2D.ts, engine part). -/
structure BallState where
  position : Vector2D
  velocity : Vector2D
  acceleration : Vector2D

/-- PhysicsEngine state: config, ball state, hexagon, running flag. -/
structure PhysicsEngine where
  config : PhysicsConfig
  ballState : BallState
  hexagon : Hexagon
  isRunning : Bool

namespace PhysicsEngine

/-- applyGravity: acceleration.y += gravity. -/
def applyGravity (s : PhysicsEngine) : PhysicsEngine :=
  { s with ballState := { s.ballState with
      acceleration := ⟨s.ballState.acceleration.x,
                       s.ballState.acceleration.y + s.config.gravity⟩ } }

/-- applyFriction: velocity *= (1 - friction * deltaTime) componentwise. -/
def applyFriction (s : PhysicsEngine) (deltaTime : ℝ) : PhysicsEngine :=
  { s with ballState := { s.ballState with
      velocity := ⟨s.ballState.velocity.x * (1 - s.config.friction * deltaTime),
                   s.ballState.velocity.y * (1 - s.config.friction * deltaTime)⟩ } }

/-- updateVelocity: velocity += acceleration * deltaTime; acceleration reset to (0,0). -/
def updateVelocity (s : PhysicsEngine) (deltaTime : ℝ) : PhysicsEngine :=
  { s with ballState := { s.ballState with
      velocity := ⟨s.ballState.velocity.x + s.ballState.acceleration.x * deltaTime,
                   s.ballState.velocity.y + s.ballState.acceleration.y * deltaTime⟩
      acceleration := ⟨0, 0⟩ } }

/-- limitVelocity: if speed exceeds maxVelocity, rescale both components by
maxVelocity / speed. -/
def limitVelocity (s : PhysicsEngine) : PhysicsEngine :=
  let speed := s.ballState.velocity.magnitude
  if speed > s.config.maxVelocity then
    { s with ballState := { s.ballState with
        velocity := ⟨s.ballState.velocity.x * (s.config.maxVelocity / speed),
                     s.ballState.velocity.y * (s.config.maxVelocity / speed)⟩ } }
  else s

/-- updatePosition: position += velocity * deltaTime. -/
def updatePosition (s : PhysicsEngine) (deltaTime : ℝ) : PhysicsEngine :=
  { s with ballState := { s.ballState with
      position := ⟨s.ballState.position.x + s.ballState.velocity.x * deltaTime,
                   s.ballState.position.y + s.ballState.velocity.y * deltaTime⟩ } }

/-- resolveCollision: positional correction along the normal, reflection scaled by
restitution, then the anti-stall random perturbation when both reflected components
are below 10 in magnitude.  rand models the two Math.random() draws. -/
def resolveCollision (s : PhysicsEngine) (edge : HexagonEdge) (penetrationDepth : ℝ)
    (rand : ℝ × ℝ) : PhysicsEngine :=
  let separationVector := edge.normal.multiply penetrationDepth
  let position := s.ballState.position.add separationVector
  let incidentVelocity := s.ballState.velocity
  let normal := edge.normal
  let dotProduct := incidentVelocity.dot normal
  let reflectedVelocity : Vector2D :=
    ⟨incidentVelocity.x - 2 * dotProduct * normal.x * s.config.restitution,
     incidentVelocity.y - 2 * dotProduct * normal.y * s.config.restitution⟩
  let velocity :=
    if |reflectedVelocity.x| < 10 ∧ |reflectedVelocity.y| < 10 then
      Vector2D.mk (reflectedVelocity.x + (rand.1 - 0.5) * 50)
                  (reflectedVelocity.y + (rand.2 - 0.5) * 50)
    else reflectedVelocity
  { s with ballState := { s.ballState with position := position, velocity := velocity } }

/-- handleCollisions: query circleHexagonCollision at the current position and
resolve when a collision (with edge and point) is reported; penetrationDepth || 0
is modelled by Option.getD 0. -/
def handleCollisions (s : PhysicsEngine) (rand : ℝ × ℝ) : PhysicsEngine :=
  let collision := circleHexagonCollision s.ballState.position s.config.ballRadius s.hexagon
  if collision.isColliding = true then
    match collision.collisionEdge, collision.collisionPoint with
    | some edge, some _ => resolveCollision s edge (collision.penetrationDepth.getD 0) rand
    | _, _ => s
  else s

/-- updateHexagonRotation: hexagon := rotateHexagon hexagon (rotationSpeed * deltaTime). -/
def updateHexagonRotation (s : PhysicsEngine) (deltaTime : ℝ) : PhysicsEngine :=
  { s with hexagon := rotateHexagon s.hexagon (s.config.rotationSpeed * deltaTime) }

/-- update: early return while not running, clamp deltaTime to 0.016, then the seven
steps in source order. -/
def update (s : PhysicsEngine) (deltaTime : ℝ) (rand : ℝ × ℝ) : PhysicsEngine :=
  if s.isRunning = true then
    let dt := min deltaTime 0.016
    updateHexagonRotation
      (handleCollisions
        (updatePosition (limitVelocity (updateVelocity (applyFriction (applyGravity s) dt) dt)) dt)
        rand)
      dt
  else s

/-- start: isRunning := true. -/
def start (s : PhysicsEngine) : PhysicsEngine := { s with isRunning := true }

/-- stop: isRunning := false. -/
def stop (s : PhysicsEngine) : PhysicsEngine := { s with isRunning := false }

/-- reset: ball to the hexagon center, fresh random velocity (the two Math.random()
draws are the rand parameters), acceleration zeroed. -/
def reset (s : PhysicsEngine) (rand : ℝ × ℝ) : PhysicsEngine :=
  { s with ballState :=
      { position := ⟨s.hexagon.center.x, s.hexagon.center.y⟩
        velocity := ⟨(rand.1 - 0.5) * 200, (rand.2 - 0.5) * 200⟩
        acceleration := ⟨0, 0⟩ } }

end PhysicsEngine

/-- Per-edge distance of a point, as used by the collision scan. -/
def edgeDistance (c : Vector2D) (e : HexagonEdge) : ℝ :=
  (distanceToEdge c e.start e.endp).distance

/-- Per-edge closest point of a point, as used by the collision scan. -/
def edgeClosestPoint (c : Vector2D) (e : HexagonEdge) : Vector2D :=
  (distanceToEdge c e.start e.endp).closestPoint

/-- The velocity formula from the specification of one collision-free update step:
each component scaled by (1 - friction * dt), then acceleration (with gravity already
accumulated into its y component) integrated over dt. -/
def specVelocityStep (cfg : PhysicsConfig) (v a : Vector2D) (dt : ℝ) : Vector2D :=
  ⟨v.x * (1 - cfg.friction * dt) + a.x * dt,
   v.y * (1 - cfg.friction * dt) + (a.y + cfg.gravity) * dt⟩

/-- The speed clamp from the specification: rescale to magnitude maxVelocity exactly
when the magnitude exceeds maxVelocity, otherwise unchanged. -/
def specClampSpeed (maxVelocity : ℝ) (v : Vector2D) : Vector2D :=
  if v.magnitude > maxVelocity then v.multiply (maxVelocity / v.magnitude) else v

/-- The reflection step of resolveCollision in isolation (before the anti-stall
perturbation): v' = v - 2 * restitution * (v.n) * n componentwise. -/
def reflectVelocity (restitution : ℝ) (v n : Vector2D) : Vector2D :=
  ⟨v.x - 2 * (v.dot n) * n.x * restitution,
   v.y - 2 * (v.dot n) * n.y * restitution⟩

/-- Default edge used for list indexing in statements. -/
def defaultEdge : HexagonEdge := ⟨⟨0, 0⟩, ⟨0, 0⟩, ⟨0, 0⟩⟩

/-- A vertical edge far from the origin; a ball near the origin never touches it. -/
def farEdge : HexagonEdge := ⟨⟨1000, -1⟩, ⟨1000, 1⟩, ⟨-1, 0⟩⟩

/-- Hexagon value whose single stored edge is far from the origin. -/
def farHexagon : Hexagon := ⟨⟨0, 0⟩, 5, [], [farEdge], 0⟩

/-- A horizontal edge through (0, 1) with downward normal; a ball at (0, 1) overlaps it. -/
def overlapEdge : HexagonEdge := ⟨⟨-1, 1⟩, ⟨1, 1⟩, ⟨0, -1⟩⟩

/-- Hexagon value whose single stored edge passes through the ball position (0, 1). -/
def overlapHexagon : Hexagon := ⟨⟨0, 0⟩, 5, [], [overlapEdge], 0⟩

/-- Config with zero gravity and friction, restitution 1, ball radius 1, speed cap 1000. -/
def baseConfig : PhysicsConfig := ⟨0, 0, 1, 0, 1, 1000⟩

/-- Config like baseConfig but with speed cap 10. -/
def capTenConfig : PhysicsConfig := ⟨0, 0, 1, 0, 1, 10⟩

/-- Config like baseConfig but with speed cap 5. -/
def capFiveConfig : PhysicsConfig := ⟨0, 0, 1, 0, 1, 5⟩

/-- Ball at the origin moving right at unit speed. -/
def unitBall : BallState := ⟨⟨0, 0⟩, ⟨1, 0⟩, ⟨0, 0⟩⟩

/-- Ball at the origin at rest. -/
def restBall : BallState := ⟨⟨0, 0⟩, ⟨0, 0⟩, ⟨0, 0⟩⟩

/-- Ball at the origin with velocity (3, 4), speed 5. -/
def slowBall : BallState := ⟨⟨0, 0⟩, ⟨3, 4⟩, ⟨0, 0⟩⟩

/-- Ball at the origin with velocity (30, 40), speed 50. -/
def fastBall : BallState := ⟨⟨0, 0⟩, ⟨30, 40⟩, ⟨0, 0⟩⟩

/-- Ball sitting on the overlap edge, moving upward fast. -/
def touchingBall : BallState := ⟨⟨0, 1⟩, ⟨0, 100⟩, ⟨0, 0⟩⟩

/-- A stopped engine. -/
def stoppedEngine : PhysicsEngine := ⟨baseConfig, unitBall, farHexagon, false⟩

/-- A running engine with the ball at rest far from the only edge. -/
def restEngine : PhysicsEngine := ⟨baseConfig, restBall, farHexagon, true⟩

/-- A running engine with the ball moving right far from the only edge. -/
def unitEngine : PhysicsEngine := ⟨baseConfig, unitBall, farHexagon, true⟩

/-- A running engine whose ball speed 5 is below the cap 10. -/
def slowEngine : PhysicsEngine := ⟨capTenConfig, slowBall, farHexagon, true⟩

/-- A running engine whose ball speed 50 exceeds the cap 5. -/
def fastEngine : PhysicsEngine := ⟨capFiveConfig, fastBall, farHexagon, true⟩

/-- A running engine whose ball overlaps the stored edge. -/
def overlapEngine : PhysicsEngine := ⟨baseConfig, touchingBall, overlapHexagon, true⟩

/-! ### Vector helper lemmas -/

theorem Vector2D.magnitude_nonneg (v : Vector2D) : 0 ≤ v.magnitude :=
  Real.sqrt_nonneg _

theorem Vector2D.magnitudeSquared_nonneg (v : Vector2D) : 0 ≤ v.magnitudeSquared := by
  have hx := mul_self_nonneg v.x
  have hy := mul_self_nonneg v.y
  unfold Vector2D.magnitudeSquared
  linarith

theorem Vector2D.magnitudeSquared_eq_zero_iff (v : Vector2D) :
    v.magnitudeSquared = 0 ↔ v = ⟨0, 0⟩ := by
  unfold Vector2D.magnitudeSquared
  constructor
  · intro h
    have hx := mul_self_nonneg v.x
    have hy := mul_self_nonneg v.y
    have hx0 : v.x * v.x = 0 := by linarith
    have hy0 : v.y * v.y = 0 := by linarith
    ext <;> simpa using mul_self_eq_zero.mp (by assumption)
  · intro h
    rw [h]
    norm_num

theorem Vector2D.subtract_magnitudeSquared_eq_zero_iff (a b : Vector2D) :
    (b.subtract a).magnitudeSquared = 0 ↔ a = b := by
  rw [Vector2D.magnitudeSquared_eq_zero_iff]
  unfold Vector2D.subtract
  constructor
  · intro h
    have hx : b.x - a.x = 0 := congrArg Vector2D.x h
    have hy : b.y - a.y = 0 := congrArg Vector2D.y h
    ext
    · linarith
    · linarith
  · intro h
    rw [h]
    ext <;> simp

theorem Vector2D.magnitude_multiply (v : Vector2D) (k : ℝ) :
    (v.multiply k).magnitude = |k| * v.magnitude := by
  unfold Vector2D.magnitude Vector2D.multiply
  have h : v.x * k * (v.x * k) + v.y * k * (v.y * k) = k ^ 2 * (v.x * v.x + v.y * v.y) := by
    ring
  rw [h, Real.sqrt_mul (sq_nonneg k), Real.sqrt_sq_eq_abs]

theorem Vector2D.magnitude_sq (v : Vector2D) :
    v.magnitude * v.magnitude = v.magnitudeSquared := by
  unfold Vector2D.magnitude Vector2D.magnitudeSquared
  exact Real.mul_self_sqrt (by nlinarith [mul_self_nonneg v.x, mul_self_nonneg v.y])

/-! ### Closest-edge scan lemmas -/

theorem scanStep_none_eq (c : Vector2D) (a : HexagonEdge) :
    scanStep c none a = some (a, edgeDistance c a, edgeClosestPoint c a) := rfl

theorem scanStep_some_eq (c : Vector2D) (e0 : HexagonEdge) (d0 : ℝ) (p0 : Vector2D)
    (a : HexagonEdge) :
    scanStep c (some (e0, d0, p0)) a =
      if edgeDistance c a < d0 then some (a, edgeDistance c a, edgeClosestPoint c a)
      else some (e0, d0, p0) := rfl

theorem scanStep_some (c : Vector2D) (x : HexagonEdge × ℝ × Vector2D) (e : HexagonEdge) :
    ∃ y, scanStep c (some x) e = some y := by
  obtain ⟨e0, d0, p0⟩ := x
  rw [scanStep_some_eq]
  by_cases h : edgeDistance c e < d0 <;> simp [h]

theorem foldl_scanStep_some (c : Vector2D) :
    ∀ (l : List HexagonEdge) (x : HexagonEdge × ℝ × Vector2D),
      ∃ y, List.foldl (scanStep c) (some x) l = some y := by
  intro l
  induction l with
  | nil => intro x; exact ⟨x, rfl⟩
  | cons a l ih =>
      intro x
      obtain ⟨y, hy⟩ := scanStep_some c x a
      simpa [List.foldl_cons, hy] using ih y

theorem foldl_scanStep_mem (c : Vector2D) :
    ∀ (l : List HexagonEdge) (acc : Option (HexagonEdge × ℝ × Vector2D))
      (e : HexagonEdge) (d : ℝ) (p : Vector2D),
      List.foldl (scanStep c) acc l = some (e, d, p) →
      (e ∈ l ∧ d = edgeDistance c e ∧ p = edgeClosestPoint c e) ∨ acc = some (e, d, p) := by
  intro l
  induction l with
  | nil => intro acc e d p h; exact Or.inr h
  | cons a l ih =>
      intro acc e d p h
      rw [List.foldl_cons] at h
      rcases ih (scanStep c acc a) e d p h with h1 | h2
      · exact Or.inl ⟨List.mem_cons_of_mem a h1.1, h1.2⟩
      · rcases acc with _ | ⟨⟨e0, d0, p0⟩⟩
        · rw [scanStep_none_eq] at h2
          simp only [Option.some.injEq, Prod.mk.injEq] at h2
          obtain ⟨rfl, hd, hp⟩ := h2
          exact Or.inl ⟨List.mem_cons_self a l, hd.symm, hp.symm⟩
        · rw [scanStep_some_eq] at h2
          by_cases hlt : edgeDistance c a < d0
          · rw [if_pos hlt] at h2
            simp only [Option.some.injEq, Prod.mk.injEq] at h2
            obtain ⟨rfl, hd, hp⟩ := h2
            exact Or.inl ⟨List.mem_cons_self a l, hd.symm, hp.symm⟩
          · rw [if_neg hlt] at h2
            exact Or.inr h2

theorem foldl_scanStep_min (c : Vector2D) :
    ∀ (l : List HexagonEdge) (acc : Option (HexagonEdge × ℝ × Vector2D))
      (e : HexagonEdge) (d : ℝ) (p : Vector2D),
      List.foldl (scanStep c) acc l = some (e, d, p) →
      (∀ e2 ∈ l, d ≤ edgeDistance c e2) ∧
      (∀ x : HexagonEdge × ℝ × Vector2D, acc = some x → d ≤ x.2.1) := by
  intro l
  induction l with
  | nil =>
      intro acc e d p h
      simp only [List.foldl_nil] at h
      refine ⟨by simp, ?_⟩
      intro x hx
      rw [hx] at h
      simp only [Option.some.injEq] at h
      rw [h]
  | cons a l ih =>
      intro acc e d p h
      rw [List.foldl_cons] at h
      obtain ⟨hl, hacc⟩ := ih (scanStep c acc a) e d p h
      rcases acc with _ | ⟨⟨e0, d0, p0⟩⟩
      · have hda : d ≤ edgeDistance c a :=
          hacc (a, edgeDistance c a, edgeClosestPoint c a) (scanStep_none_eq c a)
        refine ⟨?_, ?_⟩
        · intro e2 he2
          rcases List.mem_cons.mp he2 with rfl | hmem
          · exact hda
          · exact hl e2 hmem
        · intro x hx
          cases hx
      · by_cases hlt : edgeDistance c a < d0
        · have hda : d ≤ edgeDistance c a := by
            refine hacc (a, edgeDistance c a, edgeClosestPoint c a) ?_
            rw [scanStep_some_eq, if_pos hlt]
          refine ⟨?_, ?_⟩
          · intro e2 he2
            rcases List.mem_cons.mp he2 with rfl | hmem
            · exact hda
            · exact hl e2 hmem
          · intro x hx
            simp only [Option.some.injEq] at hx
            rw [← hx]
            exact le_of_lt (lt_of_le_of_lt hda hlt)
        · have hd0 : d ≤ d0 := by
            refine hacc (e0, d0, p0) ?_
            rw [scanStep_some_eq, if_neg hlt]
          refine ⟨?_, ?_⟩
          · intro e2 he2
            rcases List.mem_cons.mp he2 with rfl | hmem
            · exact le_trans hd0 (le_of_not_lt hlt)
            · exact hl e2 hmem
          · intro x hx
            simp only [Option.some.injEq] at hx
            rw [← hx]
            exact hd0

theorem closestEdgeScan_spec (c : Vector2D) (edges : List HexagonEdge) (hne : edges ≠ []) :
    ∃ e : HexagonEdge, e ∈ edges ∧
      closestEdgeScan c edges = some (e, edgeDistance c e, edgeClosestPoint c e) ∧
      ∀ e2 ∈ edges, edgeDistance c e ≤ edgeDistance c e2 := by
  match edges, hne with
  | a :: l, _ =>
      have hsome : ∃ y, closestEdgeScan c (a :: l) = some y := by
        unfold closestEdgeScan
        rw [List.foldl_cons, scanStep_none_eq]
        exact foldl_scanStep_some c l _
      obtain ⟨⟨e, d, p⟩, hy⟩ := hsome
      have hmem := foldl_scanStep_mem c (a :: l) none e d p hy
      have hmin := foldl_scanStep_min c (a :: l) none e d p hy
      rcases hmem with ⟨hin, hd, hp⟩ | habs
      · refine ⟨e, hin, ?_, ?_⟩
        · rw [hy, hd, hp]
        · intro e2 he2
          have := hmin.1 e2 he2
          rw [← hd]
          exact this
      · cases habs

/-! ### Collision query lemmas -/

theorem circleHexagonCollision_of_far (c : Vector2D) (radius : ℝ) (hex : Hexagon)
    (h : ∀ e ∈ hex.edges, radius < edgeDistance c e) :
    (circleHexagonCollision c radius hex).isColliding = false := by
  unfold circleHexagonCollision
  rcases hscan : closestEdgeScan c hex.edges with _ | ⟨e, d, p⟩
  · rfl
  · have hmem := foldl_scanStep_mem c hex.edges none e d p hscan
    rcases hmem with ⟨hin, hd, _⟩ | habs
    · have hrd : radius < d := by rw [hd]; exact h e hin
      have hnotle : ¬ d ≤ radius := not_le.mpr hrd
      simp [hnotle]
    · cases habs

theorem circleHexagonCollision_of_hit (c : Vector2D) (radius : ℝ) (hex : Hexagon)
    (hne : hex.edges ≠ [])
    (hhit : ∃ e ∈ hex.edges, edgeDistance c e ≤ radius) :
    ∃ e ∈ hex.edges, (∀ e2 ∈ hex.edges, edgeDistance c e ≤ edgeDistance c e2) ∧
      circleHexagonCollision c radius hex =
        { isColliding := true, collisionEdge := some e
          collisionPoint := some (edgeClosestPoint c e)
          penetrationDepth := some (radius - edgeDistance c e) } := by
  obtain ⟨e, hin, hscan, hmin⟩ := closestEdgeScan_spec c hex.edges hne
  obtain ⟨e1, he1, hle⟩ := hhit
  have hdle : edgeDistance c e ≤ radius := le_trans (hmin e1 he1) hle
  refine ⟨e, hin, hmin, ?_⟩
  unfold circleHexagonCollision
  rw [hscan]
  simp [hdle]

/-! ### Engine step lemmas -/

theorem handleCollisions_of_far (s : PhysicsEngine) (rand : ℝ × ℝ)
    (h : (circleHexagonCollision s.ballState.position s.config.ballRadius
          s.hexagon).isColliding = false) :
    PhysicsEngine.handleCollisions s rand = s := by
  unfold PhysicsEngine.handleCollisions
  simp [h]

theorem update_running_eq (s : PhysicsEngine) (deltaTime : ℝ) (rand : ℝ × ℝ)
    (h : s.isRunning = true) :
    PhysicsEngine.update s deltaTime rand =
      PhysicsEngine.updateHexagonRotation
        (PhysicsEngine.handleCollisions
          (PhysicsEngine.updatePosition
            (PhysicsEngine.limitVelocity
              (PhysicsEngine.updateVelocity
                (PhysicsEngine.applyFriction (PhysicsEngine.applyGravity s)
                  (min deltaTime 0.016))
                (min deltaTime 0.016)))
            (min deltaTime 0.016))
          rand)
        (min deltaTime 0.016) := by
  unfold PhysicsEngine.update
  rw [if_pos h]

theorem preCollision_eq (s : PhysicsEngine) (dt : ℝ) :
    PhysicsEngine.updatePosition
      (PhysicsEngine.limitVelocity
        (PhysicsEngine.updateVelocity
          (PhysicsEngine.applyFriction (PhysicsEngine.applyGravity s) dt) dt)) dt
      = { s with ballState :=
          { position := s.ballState.position.add
              ((specClampSpeed s.config.maxVelocity
                (specVelocityStep s.config s.ballState.velocity s.ballState.acceleration
                  dt)).multiply dt)
            velocity := specClampSpeed s.config.maxVelocity
              (specVelocityStep s.config s.ballState.velocity s.ballState.acceleration dt)
            acceleration := ⟨0, 0⟩ } } := by
  by_cases h : (specVelocityStep s.config s.ballState.velocity s.ballState.acceleration
      dt).magnitude > s.config.maxVelocity
  · simp only [PhysicsEngine.updatePosition, PhysicsEngine.limitVelocity,
      PhysicsEngine.updateVelocity, PhysicsEngine.applyFriction, PhysicsEngine.applyGravity,
      specClampSpeed, specVelocityStep, Vector2D.add, Vector2D.multiply] at h ⊢
    simp [h]
  · simp only [PhysicsEngine.updatePosition, PhysicsEngine.limitVelocity,
      PhysicsEngine.updateVelocity, PhysicsEngine.applyFriction, PhysicsEngine.applyGravity,
      specClampSpeed, specVelocityStep, Vector2D.add, Vector2D.multiply] at h ⊢
    simp [h]

theorem updateHexagonRotation_ballState (s : PhysicsEngine) (dt : ℝ) :
    (PhysicsEngine.updateHexagonRotation s dt).ballState = s.ballState := rfl

theorem updateHexagonRotation_config (s : PhysicsEngine) (dt : ℝ) :
    (PhysicsEngine.updateHexagonRotation s dt).config = s.config := rfl

/-! ### Hexagon trigonometry -/

theorem hexDelta_cos (θ : ℝ) : ∀ k < 6,
    Real.cos (hexAngle ((k + 1) % 6) θ - hexAngle k θ) = 1 / 2 := by
  intro k hk
  interval_cases k
  · have h : hexAngle ((0 + 1) % 6) θ - hexAngle 0 θ = Real.pi / 3 := by
      unfold hexAngle; push_cast; ring
    rw [h, Real.cos_pi_div_three]
  · have h : hexAngle ((1 + 1) % 6) θ - hexAngle 1 θ = Real.pi / 3 := by
      unfold hexAngle; push_cast; ring
    rw [h, Real.cos_pi_div_three]
  · have h : hexAngle ((2 + 1) % 6) θ - hexAngle 2 θ = Real.pi / 3 := by
      unfold hexAngle; push_cast; ring
    rw [h, Real.cos_pi_div_three]
  · have h : hexAngle ((3 + 1) % 6) θ - hexAngle 3 θ = Real.pi / 3 := by
      unfold hexAngle; push_cast; ring
    rw [h, Real.cos_pi_div_three]
  · have h : hexAngle ((4 + 1) % 6) θ - hexAngle 4 θ = Real.pi / 3 := by
      unfold hexAngle; push_cast; ring
    rw [h, Real.cos_pi_div_three]
  · have h : hexAngle ((5 + 1) % 6) θ - hexAngle 5 θ = Real.pi / 3 - 2 * Real.pi := by
      unfold hexAngle; push_cast; ring
    rw [h, Real.cos_sub_two_pi, Real.cos_pi_div_three]

theorem hexDelta_sin (θ : ℝ) : ∀ k < 6,
    Real.sin (hexAngle ((k + 1) % 6) θ - hexAngle k θ) = Real.sqrt 3 / 2 := by
  intro k hk
  interval_cases k
  · have h : hexAngle ((0 + 1) % 6) θ - hexAngle 0 θ = Real.pi / 3 := by
      unfold hexAngle; push_cast; ring
    rw [h, Real.sin_pi_div_three]
  · have h : hexAngle ((1 + 1) % 6) θ - hexAngle 1 θ = Real.pi / 3 := by
      unfold hexAngle; push_cast; ring
    rw [h, Real.sin_pi_div_three]
  · have h : hexAngle ((2 + 1) % 6) θ - hexAngle 2 θ = Real.pi / 3 := by
      unfold hexAngle; push_cast; ring
    rw [h, Real.sin_pi_div_three]
  · have h : hexAngle ((3 + 1) % 6) θ - hexAngle 3 θ = Real.pi / 3 := by
      unfold hexAngle; push_cast; ring
    rw [h, Real.sin_pi_div_three]
  · have h : hexAngle ((4 + 1) % 6) θ - hexAngle 4 θ = Real.pi / 3 := by
      unfold hexAngle; push_cast; ring
    rw [h, Real.sin_pi_div_three]
  · have h : hexAngle ((5 + 1) % 6) θ - hexAngle 5 θ = Real.pi / 3 - 2 * Real.pi := by
      unfold hexAngle; push_cast; ring
    rw [h, Real.sin_sub_two_pi, Real.sin_pi_div_three]

theorem hexEdgeOf_start (c : Vector2D) (r θ : ℝ) (k : ℕ) :
    (hexEdgeOf c r θ k).start = hexVertex c r θ k := rfl

theorem hexEdgeOf_endp (c : Vector2D) (r θ : ℝ) (k : ℕ) :
    (hexEdgeOf c r θ k).endp = hexVertex c r θ ((k + 1) % 6) := rfl

theorem hexEdge_lenSq (c : Vector2D) (r θ : ℝ) (k : ℕ)
    (hcos : Real.cos (hexAngle ((k + 1) % 6) θ - hexAngle k θ) = 1 / 2) :
    ((hexVertex c r θ ((k + 1) % 6)).subtract (hexVertex c r θ k)).magnitudeSquared = r ^ 2 := by
  have hα := Real.sin_sq_add_cos_sq (hexAngle k θ)
  have hβ := Real.sin_sq_add_cos_sq (hexAngle ((k + 1) % 6) θ)
  have hdot : Real.cos (hexAngle ((k + 1) % 6) θ) * Real.cos (hexAngle k θ) +
      Real.sin (hexAngle ((k + 1) % 6) θ) * Real.sin (hexAngle k θ) = 1 / 2 := by
    rw [← Real.cos_sub]; exact hcos
  simp only [hexVertex, Vector2D.subtract, Vector2D.magnitudeSquared]
  linear_combination r ^ 2 * hα + r ^ 2 * hβ - 2 * r ^ 2 * hdot

theorem hexEdgeOf_normal_eq (c : Vector2D) (r θ : ℝ) (hr : 0 < r) (k : ℕ)
    (hcos : Real.cos (hexAngle ((k + 1) % 6) θ - hexAngle k θ) = 1 / 2) :
    (hexEdgeOf c r θ k).normal =
      ⟨Real.sin (hexAngle k θ) - Real.sin (hexAngle ((k + 1) % 6) θ),
       Real.cos (hexAngle ((k + 1) % 6) θ) - Real.cos (hexAngle k θ)⟩ := by
  have hrne : r ≠ 0 := ne_of_gt hr
  have hlen := hexEdge_lenSq c r θ k hcos
  have hnormal : (hexEdgeOf c r θ k).normal =
      (Vector2D.mk (-(((hexVertex c r θ ((k + 1) % 6)).subtract (hexVertex c r θ k)).y))
        (((hexVertex c r θ ((k + 1) % 6)).subtract (hexVertex c r θ k)).x)).normalize := rfl
  rw [hnormal]
  have hsq : (-(((hexVertex c r θ ((k + 1) % 6)).subtract (hexVertex c r θ k)).y)) *
        (-(((hexVertex c r θ ((k + 1) % 6)).subtract (hexVertex c r θ k)).y)) +
        ((hexVertex c r θ ((k + 1) % 6)).subtract (hexVertex c r θ k)).x *
        ((hexVertex c r θ ((k + 1) % 6)).subtract (hexVertex c r θ k)).x = r ^ 2 := by
    simp only [Vector2D.magnitudeSquared] at hlen
    linear_combination hlen
  have hmag : (Vector2D.mk (-(((hexVertex c r θ ((k + 1) % 6)).subtract
        (hexVertex c r θ k)).y))
        (((hexVertex c r θ ((k + 1) % 6)).subtract (hexVertex c r θ k)).x)).magnitude
      = r := by
    simp only [Vector2D.magnitude]
    rw [hsq, Real.sqrt_sq hr.le]
  unfold Vector2D.normalize
  rw [hmag, if_neg hrne]
  ext
  · simp only [Vector2D.divide, hexVertex, Vector2D.subtract]
    field_simp
    ring
  · simp only [Vector2D.divide, hexVertex, Vector2D.subtract]
    field_simp
    ring

theorem hexEdgeOf_normal_magnitude (c : Vector2D) (r θ : ℝ) (hr : 0 < r) (k : ℕ)
    (hk : k < 6) : (hexEdgeOf c r θ k).normal.magnitude = 1 := by
  rw [hexEdgeOf_normal_eq c r θ hr k (hexDelta_cos θ k hk)]
  have hα := Real.sin_sq_add_cos_sq (hexAngle k θ)
  have hβ := Real.sin_sq_add_cos_sq (hexAngle ((k + 1) % 6) θ)
  have hdot : Real.cos (hexAngle ((k + 1) % 6) θ) * Real.cos (hexAngle k θ) +
      Real.sin (hexAngle ((k + 1) % 6) θ) * Real.sin (hexAngle k θ) = 1 / 2 := by
    rw [← Real.cos_sub]; exact hexDelta_cos θ k hk
  simp only [Vector2D.magnitude]
  have h1 : (Real.sin (hexAngle k θ) - Real.sin (hexAngle ((k + 1) % 6) θ)) *
        (Real.sin (hexAngle k θ) - Real.sin (hexAngle ((k + 1) % 6) θ)) +
        (Real.cos (hexAngle ((k + 1) % 6) θ) - Real.cos (hexAngle k θ)) *
        (Real.cos (hexAngle ((k + 1) % 6) θ) - Real.cos (hexAngle k θ)) = 1 := by
    linear_combination hα + hβ - 2 * hdot
  rw [h1, Real.sqrt_one]

theorem hexEdgeOf_normal_perp (c : Vector2D) (r θ : ℝ) (hr : 0 < r) (k : ℕ)
    (hk : k < 6) :
    (hexEdgeOf c r θ k).normal.dot
      ((hexEdgeOf c r θ k).endp.subtract (hexEdgeOf c r θ k).start) = 0 := by
  rw [hexEdgeOf_normal_eq c r θ hr k (hexDelta_cos θ k hk), hexEdgeOf_start, hexEdgeOf_endp]
  simp only [Vector2D.dot, Vector2D.subtract, hexVertex]
  ring

theorem hexEdgeOf_normal_inward (c : Vector2D) (r θ : ℝ) (hr : 0 < r) (k : ℕ)
    (hk : k < 6) :
    0 < (hexEdgeOf c r θ k).normal.dot
      (c.subtract (((hexEdgeOf c r θ k).start.add (hexEdgeOf c r θ k).endp).divide 2)) := by
  rw [hexEdgeOf_normal_eq c r θ hr k (hexDelta_cos θ k hk), hexEdgeOf_start, hexEdgeOf_endp]
  have hcross : Real.sin (hexAngle ((k + 1) % 6) θ) * Real.cos (hexAngle k θ) -
      Real.cos (hexAngle ((k + 1) % 6) θ) * Real.sin (hexAngle k θ) = Real.sqrt 3 / 2 := by
    rw [← Real.sin_sub]; exact hexDelta_sin θ k hk
  have hval : (Vector2D.mk
        (Real.sin (hexAngle k θ) - Real.sin (hexAngle ((k + 1) % 6) θ))
        (Real.cos (hexAngle ((k + 1) % 6) θ) - Real.cos (hexAngle k θ))).dot
      (c.subtract (((hexVertex c r θ k).add (hexVertex c r θ ((k + 1) % 6))).divide 2))
      = r * (Real.sqrt 3 / 2) := by
    simp only [Vector2D.dot, Vector2D.subtract, Vector2D.add, Vector2D.divide, hexVertex]
    linear_combination r * hcross
  rw [hval]
  have h3 : 0 < Real.sqrt 3 / 2 := by positivity
  exact mul_pos hr h3

theorem hexEdgeOf_distance (c : Vector2D) (r θ : ℝ) (hr : 0 < r) (k : ℕ) (hk : k < 6) :
    distanceToEdge c (hexVertex c r θ k) (hexVertex c r θ ((k + 1) % 6)) =
      { distance := r * Real.sqrt 3 / 2
        closestPoint := ((hexVertex c r θ k).add (hexVertex c r θ ((k + 1) % 6))).divide 2
        isOnSegment := true } := by
  have hrne : r ≠ 0 := ne_of_gt hr
  have hα := Real.sin_sq_add_cos_sq (hexAngle k θ)
  have hβ := Real.sin_sq_add_cos_sq (hexAngle ((k + 1) % 6) θ)
  have hdot : Real.cos (hexAngle ((k + 1) % 6) θ) * Real.cos (hexAngle k θ) +
      Real.sin (hexAngle ((k + 1) % 6) θ) * Real.sin (hexAngle k θ) = 1 / 2 := by
    rw [← Real.cos_sub]; exact hexDelta_cos θ k hk
  have hlen := hexEdge_lenSq c r θ k (hexDelta_cos θ k hk)
  have hne : ¬ ((hexVertex c r θ ((k + 1) % 6)).subtract
      (hexVertex c r θ k)).magnitudeSquared = 0 := by
    rw [hlen]
    exact pow_ne_zero 2 hrne
  have hpv : (c.subtract (hexVertex c r θ k)).dot
      ((hexVertex c r θ ((k + 1) % 6)).subtract (hexVertex c r θ k)) = r ^ 2 / 2 := by
    simp only [Vector2D.dot, Vector2D.subtract, hexVertex]
    linear_combination r ^ 2 * hα - r ^ 2 * hdot
  have ht : max 0 (min 1 ((c.subtract (hexVertex c r θ k)).dot
      ((hexVertex c r θ ((k + 1) % 6)).subtract (hexVertex c r θ k)) /
      ((hexVertex c r θ ((k + 1) % 6)).subtract
        (hexVertex c r θ k)).magnitudeSquared)) = 1 / 2 := by
    rw [hpv, hlen]
    have h12 : r ^ 2 / 2 / r ^ 2 = 1 / 2 := by field_simp; ring
    rw [h12]
    norm_num
  have hcp : (hexVertex c r θ k).add
      (((hexVertex c r θ ((k + 1) % 6)).subtract (hexVertex c r θ k)).multiply (1 / 2)) =
      ((hexVertex c r θ k).add (hexVertex c r θ ((k + 1) % 6))).divide 2 := by
    ext
    · simp only [Vector2D.add, Vector2D.subtract, Vector2D.multiply, Vector2D.divide, hexVertex]
      ring
    · simp only [Vector2D.add, Vector2D.subtract, Vector2D.multiply, Vector2D.divide, hexVertex]
      ring
  have hdist : c.distance (((hexVertex c r θ k).add (hexVertex c r θ ((k + 1) % 6))).divide 2)
      = r * Real.sqrt 3 / 2 := by
    simp only [Vector2D.distance, Vector2D.add, Vector2D.divide, hexVertex]
    have hinner : (c.x - (c.x + r * Real.cos (hexAngle k θ) +
          (c.x + r * Real.cos (hexAngle ((k + 1) % 6) θ))) / 2) *
        (c.x - (c.x + r * Real.cos (hexAngle k θ) +
          (c.x + r * Real.cos (hexAngle ((k + 1) % 6) θ))) / 2) +
        (c.y - (c.y + r * Real.sin (hexAngle k θ) +
          (c.y + r * Real.sin (hexAngle ((k + 1) % 6) θ))) / 2) *
        (c.y - (c.y + r * Real.sin (hexAngle k θ) +
          (c.y + r * Real.sin (hexAngle ((k + 1) % 6) θ))) / 2) = (r / 2) ^ 2 * 3 := by
      linear_combination (r ^ 2 / 4) * hα + (r ^ 2 / 4) * hβ + (r ^ 2 / 2) * hdot
    rw [hinner, Real.sqrt_mul (sq_nonneg (r / 2)), Real.sqrt_sq (by positivity : (0:ℝ) ≤ r / 2)]
    ring
  simp only [distanceToEdge]
  rw [if_neg hne, ht, hcp]
  simp only [DistanceResult.mk.injEq]
  refine ⟨hdist, trivial, ?_⟩
  rw [decide_eq_true_eq]
  norm_num

theorem hexVertex_distance (c : Vector2D) (r θ : ℝ) (hr : 0 < r) (k : ℕ) :
    (hexVertex c r θ k).distance c = r := by
  have hα := Real.sin_sq_add_cos_sq (hexAngle k θ)
  simp only [Vector2D.distance, hexVertex]
  have h : (c.x + r * Real.cos (hexAngle k θ) - c.x) *
      (c.x + r * Real.cos (hexAngle k θ) - c.x) +
      (c.y + r * Real.sin (hexAngle k θ) - c.y) *
      (c.y + r * Real.sin (hexAngle k θ) - c.y) = r ^ 2 := by
    linear_combination r ^ 2 * hα
  rw [h, Real.sqrt_sq hr.le]

theorem hexEdgeOf_edgeDistance (c : Vector2D) (r θ : ℝ) (hr : 0 < r) (k : ℕ) (hk : k < 6) :
    edgeDistance c (hexEdgeOf c r θ k) = r * Real.sqrt 3 / 2 := by
  unfold edgeDistance
  rw [hexEdgeOf_start, hexEdgeOf_endp, hexEdgeOf_distance c r θ hr k hk]

theorem range_six : List.range 6 = [0, 1, 2, 3, 4, 5] := by decide

theorem createHexagon_vertices (c : Vector2D) (r θ : ℝ) :
    (createHexagon c r θ).vertices =
      [hexVertex c r θ 0, hexVertex c r θ 1, hexVertex c r θ 2,
       hexVertex c r θ 3, hexVertex c r θ 4, hexVertex c r θ 5] := by
  simp [createHexagon, range_six]

theorem createHexagon_edges (c : Vector2D) (r θ : ℝ) :
    (createHexagon c r θ).edges =
      [hexEdgeOf c r θ 0, hexEdgeOf c r θ 1, hexEdgeOf c r θ 2,
       hexEdgeOf c r θ 3, hexEdgeOf c r θ 4, hexEdgeOf c r θ 5] := by
  simp [createHexagon, range_six]

theorem createHexagon_vertices_getD (c : Vector2D) (r θ : ℝ) (k : ℕ) (hk : k < 6) :
    (createHexagon c r θ).vertices.getD k ⟨0, 0⟩ = hexVertex c r θ k := by
  rw [createHexagon_vertices]
  interval_cases k <;> rfl

theorem createHexagon_edges_getD (c : Vector2D) (r θ : ℝ) (k : ℕ) (hk : k < 6) :
    (createHexagon c r θ).edges.getD k defaultEdge = hexEdgeOf c r θ k := by
  rw [createHexagon_edges]
  interval_cases k <;> rfl

theorem createHexagon_edges_mem (c : Vector2D) (r θ : ℝ) (e : HexagonEdge) :
    e ∈ (createHexagon c r θ).edges ↔ ∃ k, k < 6 ∧ hexEdgeOf c r θ k = e := by
  simp [createHexagon, List.mem_map, List.mem_range]

theorem createHexagon_edgeDistance_mem (c : Vector2D) (r θ : ℝ) (hr : 0 < r)
    (e : HexagonEdge) (he : e ∈ (createHexagon c r θ).edges) :
    edgeDistance c e = r * Real.sqrt 3 / 2 := by
  obtain ⟨k, hk, rfl⟩ := (createHexagon_edges_mem c r θ e).mp he
  exact hexEdgeOf_edgeDistance c r θ hr k hk

/-! ### Claim theorems -/

/-- C4: createHexagon with positive radius returns exactly 6 vertices, each at
distance r from the center at angle rotation + k * 60 degrees, and exactly 6 edges,
where edge i connects vertex i to vertex (i+1) % 6 and each edge normal is a unit
vector perpendicular to the edge direction whose dot product with
center - midpoint(edge) is positive. -/
theorem createHexagon_spec (c : Vector2D) (r θ : ℝ) (hr : 0 < r) :
    (createHexagon c r θ).vertices.length = 6 ∧
    (createHexagon c r θ).edges.length = 6 ∧
    (∀ k, k < 6 →
      (createHexagon c r θ).vertices.getD k ⟨0, 0⟩ =
        ⟨c.x + r * Real.cos (θ + k * (Real.pi / 3)),
         c.y + r * Real.sin (θ + k * (Real.pi / 3))⟩ ∧
      ((createHexagon c r θ).vertices.getD k ⟨0, 0⟩).distance c = r) ∧
    (∀ k, k < 6 →
      ((createHexagon c r θ).edges.getD k defaultEdge).start =
        (createHexagon c r θ).vertices.getD k ⟨0, 0⟩ ∧
      ((createHexagon c r θ).edges.getD k defaultEdge).endp =
        (createHexagon c r θ).vertices.getD ((k + 1) % 6) ⟨0, 0⟩ ∧
      ((createHexagon c r θ).edges.getD k defaultEdge).normal.magnitude = 1 ∧
      ((createHexagon c r θ).edges.getD k defaultEdge).normal.dot
        (((createHexagon c r θ).edges.getD k defaultEdge).endp.subtract
          ((createHexagon c r θ).edges.getD k defaultEdge).start) = 0 ∧
      0 < ((createHexagon c r θ).edges.getD k defaultEdge).normal.dot
        (c.subtract ((((createHexagon c r θ).edges.getD k defaultEdge).start.add
          ((createHexagon c r θ).edges.getD k defaultEdge).endp).divide 2))) := by
  refine ⟨by rw [createHexagon_vertices]; rfl, by rw [createHexagon_edges]; rfl, ?_, ?_⟩
  · intro k hk
    rw [createHexagon_vertices_getD c r θ k hk]
    constructor
    · have harg : hexAngle k θ = θ + k * (Real.pi / 3) := by unfold hexAngle; ring
      unfold hexVertex
      rw [harg]
    · exact hexVertex_distance c r θ hr k
  · intro k hk
    have hk2 : (k + 1) % 6 < 6 := Nat.mod_lt _ (by norm_num)
    rw [createHexagon_edges_getD c r θ k hk, createHexagon_vertices_getD c r θ k hk,
      createHexagon_vertices_getD c r θ ((k + 1) % 6) hk2]
    exact ⟨hexEdgeOf_start c r θ k, hexEdgeOf_endp c r θ k,
      hexEdgeOf_normal_magnitude c r θ hr k hk,
      hexEdgeOf_normal_perp c r θ hr k hk,
      hexEdgeOf_normal_inward c r θ hr k hk⟩

/-- Witness for C4 at center (0,0), radius 1, rotation 0. -/
theorem createHexagon_spec_witness :
    (0:ℝ) < 1 ∧ (createHexagon ⟨0, 0⟩ 1 0).vertices.length = 6 :=
  ⟨one_pos, (createHexagon_spec ⟨0, 0⟩ 1 0 one_pos).1⟩

/-- C5: for a hexagon with 6 edges, circleHexagonCollision reports a collision
exactly when the minimum edge distance is at most the radius; when colliding it
returns a minimizing edge, its closest point, and penetration depth
radius - minimum distance. -/
theorem circleHexagonCollision_spec (c : Vector2D) (radius : ℝ) (hex : Hexagon)
    (h6 : hex.edges.length = 6) :
    ∃ e ∈ hex.edges,
      (∀ e2 ∈ hex.edges, edgeDistance c e ≤ edgeDistance c e2) ∧
      ((circleHexagonCollision c radius hex).isColliding = true ↔
        edgeDistance c e ≤ radius) ∧
      (edgeDistance c e ≤ radius →
        (circleHexagonCollision c radius hex).collisionEdge = some e ∧
        (circleHexagonCollision c radius hex).collisionPoint =
          some (edgeClosestPoint c e) ∧
        (circleHexagonCollision c radius hex).penetrationDepth =
          some (radius - edgeDistance c e)) := by
  have hne : hex.edges ≠ [] := by
    intro hcontra
    rw [hcontra] at h6
    simp at h6
  obtain ⟨e, hin, hscan, hmin⟩ := closestEdgeScan_spec c hex.edges hne
  refine ⟨e, hin, hmin, ?_, ?_⟩
  · unfold circleHexagonCollision
    rw [hscan]
    by_cases hle : edgeDistance c e ≤ radius
    · simp [hle]
    · simp [hle]
  · intro hle
    unfold circleHexagonCollision
    rw [hscan]
    simp [hle]

/-- Witness for C5 on a hexagon built by createHexagon. -/
theorem circleHexagonCollision_spec_witness :
    (createHexagon ⟨0, 0⟩ 1 0).edges.length = 6 ∧
    ∃ e ∈ (createHexagon ⟨0, 0⟩ 1 0).edges,
      (∀ e2 ∈ (createHexagon ⟨0, 0⟩ 1 0).edges,
        edgeDistance ⟨0, 0⟩ e ≤ edgeDistance ⟨0, 0⟩ e2) ∧
      ((circleHexagonCollision ⟨0, 0⟩ 2 (createHexagon ⟨0, 0⟩ 1 0)).isColliding = true ↔
        edgeDistance ⟨0, 0⟩ e ≤ 2) ∧
      (edgeDistance ⟨0, 0⟩ e ≤ 2 →
        (circleHexagonCollision ⟨0, 0⟩ 2 (createHexagon ⟨0, 0⟩ 1 0)).collisionEdge = some e ∧
        (circleHexagonCollision ⟨0, 0⟩ 2 (createHexagon ⟨0, 0⟩ 1 0)).collisionPoint =
          some (edgeClosestPoint ⟨0, 0⟩ e) ∧
        (circleHexagonCollision ⟨0, 0⟩ 2 (createHexagon ⟨0, 0⟩ 1 0)).penetrationDepth =
          some (2 - edgeDistance ⟨0, 0⟩ e)) :=
  ⟨by rw [createHexagon_edges]; rfl,
   circleHexagonCollision_spec ⟨0, 0⟩ 2 (createHexagon ⟨0, 0⟩ 1 0)
     (by rw [createHexagon_edges]; rfl)⟩

/-- C6: with the circle centered at the hexagon center, a radius below the inradius
r * sqrt 3 / 2 reports no collision, and a radius above it reports a collision
against some edge with positive penetration depth. -/
theorem createHexagon_inradius_spec (c : Vector2D) (r θ radius : ℝ) (hr : 0 < r) :
    (radius < r * Real.sqrt 3 / 2 →
      (circleHexagonCollision c radius (createHexagon c r θ)).isColliding = false) ∧
    (r * Real.sqrt 3 / 2 < radius →
      (circleHexagonCollision c radius (createHexagon c r θ)).isColliding = true ∧
      (∃ e ∈ (createHexagon c r θ).edges,
        (circleHexagonCollision c radius (createHexagon c r θ)).collisionEdge = some e) ∧
      ∃ p, (circleHexagonCollision c radius (createHexagon c r θ)).penetrationDepth
          = some p ∧ 0 < p) := by
  constructor
  · intro hlt
    apply circleHexagonCollision_of_far
    intro e he
    rw [createHexagon_edgeDistance_mem c r θ hr e he]
    exact hlt
  · intro hgt
    have hne : (createHexagon c r θ).edges ≠ [] := by
      rw [createHexagon_edges]
      simp
    have hhit : ∃ e ∈ (createHexagon c r θ).edges, edgeDistance c e ≤ radius := by
      refine ⟨hexEdgeOf c r θ 0, ?_, ?_⟩
      · rw [createHexagon_edges]
        simp
      · rw [hexEdgeOf_edgeDistance c r θ hr 0 (by norm_num)]
        exact le_of_lt hgt
    obtain ⟨e, hin, hmin, heq⟩ := circleHexagonCollision_of_hit c radius
      (createHexagon c r θ) hne hhit
    have hdist := createHexagon_edgeDistance_mem c r θ hr e hin
    refine ⟨?_, ⟨e, hin, ?_⟩, ?_⟩
    · rw [heq]
    · rw [heq]
    · refine ⟨radius - edgeDistance c e, ?_, ?_⟩
      · rw [heq]
      · rw [hdist]
        linarith

/-- Witness for C6 at radius 1, circle radius 0 (below the inradius). -/
theorem createHexagon_inradius_spec_witness :
    (0:ℝ) < 1 ∧ (0:ℝ) < 1 * Real.sqrt 3 / 2 ∧
    (circleHexagonCollision ⟨0, 0⟩ 0 (createHexagon ⟨0, 0⟩ 1 0)).isColliding = false := by
  have h3 : (0:ℝ) < 1 * Real.sqrt 3 / 2 := by
    have : (0:ℝ) < Real.sqrt 3 := Real.sqrt_pos.mpr (by norm_num)
    linarith
  exact ⟨one_pos, h3, (createHexagon_inradius_spec ⟨0, 0⟩ 1 0 0 one_pos).1 h3⟩

theorem tiltEdge_normal :
    (hexEdgeOf ⟨0, 0⟩ 1 (-(Real.pi / 6)) 0).normal = ⟨-1, 0⟩ := by
  rw [hexEdgeOf_normal_eq ⟨0, 0⟩ 1 (-(Real.pi / 6)) one_pos 0
    (hexDelta_cos (-(Real.pi / 6)) 0 (by norm_num))]
  have ha : hexAngle 0 (-(Real.pi / 6)) = -(Real.pi / 6) := by
    unfold hexAngle; push_cast; ring
  have hb : hexAngle ((0 + 1) % 6) (-(Real.pi / 6)) = Real.pi / 6 := by
    unfold hexAngle; push_cast; ring
  rw [ha, hb, Real.sin_neg, Real.sin_pi_div_six, Real.cos_neg, Real.cos_pi_div_six]
  ext <;> norm_num

/-- C2 counterexample: with restitution -1 (which satisfies restitution <= 1), the
reflection step against an actual createHexagon edge normal triples the speed of the
incident velocity (1, 0), so the claim fails as stated for negative restitution. -/
theorem reflect_speed_le_cex :
    ((-1 : ℝ) ≤ 1) ∧
    (createHexagon ⟨0, 0⟩ 1 (-(Real.pi / 6))).edges.getD 0 defaultEdge ∈
      (createHexagon ⟨0, 0⟩ 1 (-(Real.pi / 6))).edges ∧
    ¬ ((reflectVelocity (-1) ⟨1, 0⟩
          (((createHexagon ⟨0, 0⟩ 1 (-(Real.pi / 6))).edges.getD 0
            defaultEdge).normal)).magnitude ≤ (Vector2D.mk 1 0).magnitude) := by
  refine ⟨by norm_num, ?_, ?_⟩
  · rw [createHexagon_edges_getD _ _ _ 0 (by norm_num), createHexagon_edges]
    simp
  · rw [createHexagon_edges_getD _ _ _ 0 (by norm_num), tiltEdge_normal]
    have hrv : reflectVelocity (-1) ⟨1, 0⟩ ⟨-1, 0⟩ = ⟨3, 0⟩ := by
      simp only [reflectVelocity, Vector2D.dot]
      ext <;> norm_num
    rw [hrv]
    simp only [Vector2D.magnitude]
    rw [show (3:ℝ) * 3 + 0 * 0 = 3 ^ 2 by norm_num,
      Real.sqrt_sq (by norm_num : (0:ℝ) ≤ 3),
      show (1:ℝ) * 1 + 0 * 0 = 1 by norm_num, Real.sqrt_one]
    norm_num

/-- C2 (amended): for every edge of a hexagon built by createHexagon with positive
radius and every incident velocity, the reflection step does not increase the speed
whenever 0 <= restitution <= 1. -/
theorem reflect_speed_le (c : Vector2D) (r θ : ℝ) (hr : 0 < r) (e : HexagonEdge)
    (he : e ∈ (createHexagon c r θ).edges) (v : Vector2D) (ρ : ℝ)
    (h0 : 0 ≤ ρ) (h1 : ρ ≤ 1) :
    (reflectVelocity ρ v e.normal).magnitude ≤ v.magnitude := by
  obtain ⟨k, hk, rfl⟩ := (createHexagon_edges_mem c r θ e).mp he
  have hmag := hexEdgeOf_normal_magnitude c r θ hr k hk
  have hsq : (hexEdgeOf c r θ k).normal.x * (hexEdgeOf c r θ k).normal.x +
      (hexEdgeOf c r θ k).normal.y * (hexEdgeOf c r θ k).normal.y = 1 := by
    have h := Vector2D.magnitude_sq (hexEdgeOf c r θ k).normal
    rw [hmag] at h
    simpa [Vector2D.magnitudeSquared] using h.symm
  simp only [reflectVelocity, Vector2D.dot, Vector2D.magnitude]
  apply Real.sqrt_le_sqrt
  set n := (hexEdgeOf c r θ k).normal
  have hd : 0 ≤ ρ * (1 - ρ) * (v.x * n.x + v.y * n.y) ^ 2 :=
    mul_nonneg (mul_nonneg h0 (by linarith)) (sq_nonneg _)
  have key : (v.x - 2 * (v.x * n.x + v.y * n.y) * n.x * ρ) *
        (v.x - 2 * (v.x * n.x + v.y * n.y) * n.x * ρ) +
        (v.y - 2 * (v.x * n.x + v.y * n.y) * n.y * ρ) *
        (v.y - 2 * (v.x * n.x + v.y * n.y) * n.y * ρ) =
      v.x * v.x + v.y * v.y - 4 * (ρ * (1 - ρ) * (v.x * n.x + v.y * n.y) ^ 2) := by
    linear_combination (4 * ρ ^ 2 * (v.x * n.x + v.y * n.y) ^ 2) * hsq
  rw [key]
  linarith

/-- Witness for C2 (amended) at restitution 1/2 on an edge of a unit hexagon. -/
theorem reflect_speed_le_witness :
    (reflectVelocity (1 / 2) ⟨5, 7⟩
      ((createHexagon ⟨0, 0⟩ 1 0).edges.getD 0 defaultEdge).normal).magnitude ≤
      (Vector2D.mk 5 7).magnitude := by
  have he : (createHexagon ⟨0, 0⟩ 1 0).edges.getD 0 defaultEdge ∈
      (createHexagon ⟨0, 0⟩ 1 0).edges := by
    rw [createHexagon_edges_getD _ _ _ 0 (by norm_num), createHexagon_edges]
    simp
  exact reflect_speed_le ⟨0, 0⟩ 1 0 one_pos _ he ⟨5, 7⟩ (1 / 2) (by norm_num) (by norm_num)

/-- C3 counterexample: for the point (2,0) and the segment (0,0)-(1,0), the raw
projection parameter is 2, outside [0,1], yet distanceToEdge reports
isOnSegment = true (the source computes the flag from the clamped parameter), so the
claimed equivalence fails. -/
theorem distanceToEdge_cex :
    ¬ (((distanceToEdge ⟨2, 0⟩ ⟨0, 0⟩ ⟨1, 0⟩).isOnSegment = true) ↔
      (0 ≤ ((Vector2D.mk 2 0).subtract ⟨0, 0⟩).dot ((Vector2D.mk 1 0).subtract ⟨0, 0⟩) /
            ((Vector2D.mk 1 0).subtract ⟨0, 0⟩).magnitudeSquared ∧
        ((Vector2D.mk 2 0).subtract ⟨0, 0⟩).dot ((Vector2D.mk 1 0).subtract ⟨0, 0⟩) /
            ((Vector2D.mk 1 0).subtract ⟨0, 0⟩).magnitudeSquared ≤ 1)) := by
  intro h
  have hraw : ((Vector2D.mk 2 0).subtract ⟨0, 0⟩).dot ((Vector2D.mk 1 0).subtract ⟨0, 0⟩) /
      ((Vector2D.mk 1 0).subtract ⟨0, 0⟩).magnitudeSquared = 2 := by
    norm_num [Vector2D.subtract, Vector2D.dot, Vector2D.magnitudeSquared]
  have hflag : (distanceToEdge ⟨2, 0⟩ ⟨0, 0⟩ ⟨1, 0⟩).isOnSegment = true := by
    have hz : ¬ ((Vector2D.mk 1 0).subtract ⟨0, 0⟩).magnitudeSquared = 0 := by
      norm_num [Vector2D.subtract, Vector2D.magnitudeSquared]
    simp only [distanceToEdge]
    rw [if_neg hz, hraw]
    rw [decide_eq_true_eq]
    constructor
    · exact le_max_left 0 _
    · exact max_le (by norm_num) (min_le_left 1 2)
  have h2 := (h.mp hflag).2
  rw [hraw] at h2
  linarith

/-- C3 (amended): distanceToEdge clamps the projection parameter to [0,1], returns
the clamped closest point together with the distance of the query point to it, and
an isOnSegment flag that is always true (the source computes the flag from the
already clamped parameter); for a degenerate zero-length segment it returns the
distance to the first endpoint with that endpoint as closest point. -/
theorem distanceToEdge_spec (p a b : Vector2D) :
    (a = b → distanceToEdge p a b =
      { distance := p.distance a, closestPoint := a, isOnSegment := true }) ∧
    (a ≠ b →
      distanceToEdge p a b =
        { distance := p.distance (a.add ((b.subtract a).multiply
            (max 0 (min 1 ((p.subtract a).dot (b.subtract a) /
              (b.subtract a).magnitudeSquared)))))
          closestPoint := a.add ((b.subtract a).multiply
            (max 0 (min 1 ((p.subtract a).dot (b.subtract a) /
              (b.subtract a).magnitudeSquared))))
          isOnSegment := true } ∧
      0 ≤ max 0 (min 1 ((p.subtract a).dot (b.subtract a) /
          (b.subtract a).magnitudeSquared)) ∧
      max 0 (min 1 ((p.subtract a).dot (b.subtract a) /
          (b.subtract a).magnitudeSquared)) ≤ 1) ∧
    (distanceToEdge p a b).isOnSegment = true := by
  have ht0 : (0:ℝ) ≤ max 0 (min 1 ((p.subtract a).dot (b.subtract a) /
      (b.subtract a).magnitudeSquared)) := le_max_left 0 _
  have ht1 : max 0 (min 1 ((p.subtract a).dot (b.subtract a) /
      (b.subtract a).magnitudeSquared)) ≤ 1 :=
    max_le (by norm_num) (min_le_left 1 _)
  have hdeg : ∀ hab : a = b, distanceToEdge p a b =
      { distance := p.distance a, closestPoint := a, isOnSegment := true } := by
    intro hab
    subst hab
    have hz : (a.subtract a).magnitudeSquared = 0 := by
      simp [Vector2D.subtract, Vector2D.magnitudeSquared]
    simp only [distanceToEdge]
    rw [if_pos hz]
  have hgen : ∀ _ : a ≠ b, distanceToEdge p a b =
      { distance := p.distance (a.add ((b.subtract a).multiply
          (max 0 (min 1 ((p.subtract a).dot (b.subtract a) /
            (b.subtract a).magnitudeSquared)))))
        closestPoint := a.add ((b.subtract a).multiply
          (max 0 (min 1 ((p.subtract a).dot (b.subtract a) /
            (b.subtract a).magnitudeSquared))))
        isOnSegment := true } := by
    intro hab
    have hz : ¬ (b.subtract a).magnitudeSquared = 0 := by
      intro hcontra
      exact hab ((Vector2D.subtract_magnitudeSquared_eq_zero_iff a b).mp hcontra)
    simp only [distanceToEdge]
    rw [if_neg hz]
    simp only [DistanceResult.mk.injEq]
    refine ⟨trivial, trivial, ?_⟩
    rw [decide_eq_true_eq]
    exact ⟨ht0, ht1⟩
  refine ⟨hdeg, fun hab => ⟨hgen hab, ht0, ht1⟩, ?_⟩
  by_cases hab : a = b
  · rw [hdeg hab]
  · rw [hgen hab]

/-- Witness for C3 (amended) on the degenerate segment (1,2)-(1,2). -/
theorem distanceToEdge_spec_witness :
    distanceToEdge ⟨5, 5⟩ ⟨1, 2⟩ ⟨1, 2⟩ =
      { distance := (Vector2D.mk 5 5).distance ⟨1, 2⟩, closestPoint := ⟨1, 2⟩
        isOnSegment := true } :=
  (distanceToEdge_spec ⟨5, 5⟩ ⟨1, 2⟩ ⟨1, 2⟩).1 rfl

/-! ### Concrete edge evaluations -/

theorem farEdge_distanceResult (px : ℝ) (hpx : px ≤ 1000) :
    distanceToEdge ⟨px, 0⟩ ⟨1000, -1⟩ ⟨1000, 1⟩ =
      { distance := 1000 - px, closestPoint := ⟨1000, 0⟩, isOnSegment := true } := by
  have hz : ¬ ((Vector2D.mk 1000 1).subtract ⟨1000, -1⟩).magnitudeSquared = 0 := by
    norm_num [Vector2D.subtract, Vector2D.magnitudeSquared]
  simp only [distanceToEdge]
  rw [if_neg hz]
  have ht : max 0 (min 1 (((Vector2D.mk px 0).subtract ⟨1000, -1⟩).dot
      ((Vector2D.mk 1000 1).subtract ⟨1000, -1⟩) /
      ((Vector2D.mk 1000 1).subtract ⟨1000, -1⟩).magnitudeSquared)) = 1 / 2 := by
    norm_num [Vector2D.subtract, Vector2D.dot, Vector2D.magnitudeSquared, min_def, max_def]
  rw [ht]
  simp only [DistanceResult.mk.injEq]
  refine ⟨?_, ?_, ?_⟩
  · simp only [Vector2D.distance, Vector2D.add, Vector2D.subtract, Vector2D.multiply]
    rw [show (px - (1000 + (1000 - 1000) * (1 / 2))) * (px - (1000 + (1000 - 1000) * (1 / 2))) +
        (0 - (-1 + (1 - -1) * (1 / 2))) * (0 - (-1 + (1 - -1) * (1 / 2)))
        = (1000 - px) ^ 2 by ring]
    rw [Real.sqrt_sq (by linarith : (0:ℝ) ≤ 1000 - px)]
  · ext <;> norm_num [Vector2D.add, Vector2D.subtract, Vector2D.multiply]
  · rw [decide_eq_true_eq]
    norm_num

theorem farEdge_edgeDistance (px : ℝ) (hpx : px ≤ 1000) :
    edgeDistance ⟨px, 0⟩ farEdge = 1000 - px := by
  simp only [edgeDistance, farEdge]
  rw [farEdge_distanceResult px hpx]

theorem farHexagon_noCollision (px radius : ℝ) (hpx : px ≤ 1000)
    (hrad : radius < 1000 - px) :
    (circleHexagonCollision ⟨px, 0⟩ radius farHexagon).isColliding = false := by
  apply circleHexagonCollision_of_far
  intro e he
  have heq : e = farEdge := by simpa [farHexagon] using he
  rw [heq, farEdge_edgeDistance px hpx]
  exact hrad

/-- C8: reset places the ball exactly at the hexagon center with zero acceleration
and a fresh randomized velocity, leaving config, hexagon and run state unchanged. -/
theorem reset_spec (s : PhysicsEngine) (rand : ℝ × ℝ) :
    (PhysicsEngine.reset s rand).ballState.position = s.hexagon.center ∧
    (PhysicsEngine.reset s rand).ballState.acceleration = ⟨0, 0⟩ ∧
    (PhysicsEngine.reset s rand).ballState.velocity =
      ⟨(rand.1 - 0.5) * 200, (rand.2 - 0.5) * 200⟩ ∧
    (PhysicsEngine.reset s rand).config = s.config ∧
    (PhysicsEngine.reset s rand).hexagon = s.hexagon ∧
    (PhysicsEngine.reset s rand).isRunning = s.isRunning := by
  refine ⟨?_, rfl, rfl, rfl, rfl, rfl⟩
  ext <;> rfl

/-- C9: while stopped, update is a no-op on the whole engine state; start and stop
only set the running flag. -/
theorem stopped_update_noop (s : PhysicsEngine) (deltaTime : ℝ) (rand : ℝ × ℝ)
    (h : s.isRunning = false) :
    PhysicsEngine.update s deltaTime rand = s ∧
    PhysicsEngine.start s = { s with isRunning := true } ∧
    PhysicsEngine.stop s = { s with isRunning := false } := by
  refine ⟨?_, rfl, rfl⟩
  unfold PhysicsEngine.update
  rw [h]
  simp

/-- Witness for C9 on a concrete stopped engine. -/
theorem stopped_update_noop_witness :
    PhysicsEngine.update stoppedEngine 1 (0, 0) = stoppedEngine :=
  (stopped_update_noop stoppedEngine 1 (0, 0) rfl).1

/-- C1: one Running update with no collision detected after position integration
clamps the timestep to 0.016, sets the velocity to the clamped value of the
friction-and-gravity integrated velocity, moves the position by that velocity times
the effective timestep, and resets the acceleration; the clamp leaves the vector
unchanged unless its magnitude exceeds maxVelocity, in which case (for the positive
speed cap of the data model) it rescales it to magnitude exactly maxVelocity in the
same direction. -/
theorem update_noCollision_spec (s : PhysicsEngine) (deltaTime : ℝ) (rand : ℝ × ℝ)
    (hrun : s.isRunning = true)
    (hnc : (circleHexagonCollision
        (s.ballState.position.add
          ((specClampSpeed s.config.maxVelocity
            (specVelocityStep s.config s.ballState.velocity s.ballState.acceleration
              (min deltaTime 0.016))).multiply (min deltaTime 0.016)))
        s.config.ballRadius s.hexagon).isColliding = false) :
    (PhysicsEngine.update s deltaTime rand).ballState.velocity =
      specClampSpeed s.config.maxVelocity
        (specVelocityStep s.config s.ballState.velocity s.ballState.acceleration
          (min deltaTime 0.016)) ∧
    (PhysicsEngine.update s deltaTime rand).ballState.position =
      s.ballState.position.add
        ((specClampSpeed s.config.maxVelocity
          (specVelocityStep s.config s.ballState.velocity s.ballState.acceleration
            (min deltaTime 0.016))).multiply (min deltaTime 0.016)) ∧
    (PhysicsEngine.update s deltaTime rand).ballState.acceleration = ⟨0, 0⟩ ∧
    (∀ w : Vector2D, ¬ w.magnitude > s.config.maxVelocity →
      specClampSpeed s.config.maxVelocity w = w) ∧
    (∀ w : Vector2D, w.magnitude > s.config.maxVelocity → 0 < s.config.maxVelocity →
      (specClampSpeed s.config.maxVelocity w).magnitude = s.config.maxVelocity ∧
      ∃ kpos : ℝ, 0 < kpos ∧ specClampSpeed s.config.maxVelocity w = w.multiply kpos) := by
  have hupd := update_running_eq s deltaTime rand hrun
  rw [preCollision_eq s (min deltaTime 0.016)] at hupd
  rw [handleCollisions_of_far
    { s with ballState :=
        { position := s.ballState.position.add
            ((specClampSpeed s.config.maxVelocity
              (specVelocityStep s.config s.ballState.velocity s.ballState.acceleration
                (min deltaTime 0.016))).multiply (min deltaTime 0.016))
          velocity := specClampSpeed s.config.maxVelocity
            (specVelocityStep s.config s.ballState.velocity s.ballState.acceleration
              (min deltaTime 0.016))
          acceleration := ⟨0, 0⟩ } } rand (by exact hnc)] at hupd
  rw [hupd]
  refine ⟨rfl, rfl, rfl, ?_, ?_⟩
  · intro w hw
    unfold specClampSpeed
    rw [if_neg hw]
  · intro w hw hpos
    have hmagpos : 0 < w.magnitude := lt_trans hpos hw
    have hscale : 0 < s.config.maxVelocity / w.magnitude := div_pos hpos hmagpos
    constructor
    · unfold specClampSpeed
      rw [if_pos hw, Vector2D.magnitude_multiply, abs_of_nonneg (le_of_lt hscale)]
      field_simp
    · refine ⟨s.config.maxVelocity / w.magnitude, hscale, ?_⟩
      unfold specClampSpeed
      rw [if_pos hw]

/-- Witness for C1 on a running engine whose ball rests at the origin, far from the
only stored edge. -/
theorem update_noCollision_spec_witness :
    restEngine.isRunning = true ∧
    (PhysicsEngine.update restEngine 0.01 (0, 0)).ballState.acceleration = ⟨0, 0⟩ := by
  have hrun : restEngine.isRunning = true := rfl
  have h1 : specVelocityStep restEngine.config restEngine.ballState.velocity
      restEngine.ballState.acceleration (min 0.01 0.016) = ⟨0, 0⟩ := by
    ext <;> simp [specVelocityStep, restEngine, baseConfig, restBall]
  have h2 : specClampSpeed restEngine.config.maxVelocity ⟨0, 0⟩ = ⟨0, 0⟩ := by
    unfold specClampSpeed
    rw [if_neg]
    have hm : (Vector2D.mk 0 0).magnitude = 0 := by
      simp [Vector2D.magnitude]
    rw [hm]
    have hmax : restEngine.config.maxVelocity = 1000 := rfl
    rw [hmax]
    norm_num
  have h3 : restEngine.ballState.position.add ((Vector2D.mk 0 0).multiply (min 0.01 0.016))
      = ⟨0, 0⟩ := by
    ext <;> simp [Vector2D.add, Vector2D.multiply, restEngine, restBall]
  have hnc : (circleHexagonCollision
      (restEngine.ballState.position.add
        ((specClampSpeed restEngine.config.maxVelocity
          (specVelocityStep restEngine.config restEngine.ballState.velocity
            restEngine.ballState.acceleration (min 0.01 0.016))).multiply
          (min 0.01 0.016)))
      restEngine.config.ballRadius restEngine.hexagon).isColliding = false := by
    rw [h1, h2, h3]
    exact farHexagon_noCollision 0 1 (by norm_num) (by norm_num)
  exact ⟨hrun, (update_noCollision_spec restEngine 0.01 (0, 0) hrun hnc).2.2.1⟩

theorem unit_magnitude_one : (Vector2D.mk 1 0).magnitude = 1 := by
  simp only [Vector2D.magnitude]
  rw [show (1:ℝ) * 1 + 0 * 0 = 1 by norm_num, Real.sqrt_one]

/-- C7 (amended): with zero gravity, zero friction, zero stored acceleration, ball
speed at most maxVelocity, a timestep at most the 0.016 clamp, and no collision
detected after position integration, one update moves the position by exactly
velocity * dt and leaves the velocity unchanged. -/
theorem update_pure_integration (s : PhysicsEngine) (deltaTime : ℝ) (rand : ℝ × ℝ)
    (hrun : s.isRunning = true)
    (hg : s.config.gravity = 0) (hf : s.config.friction = 0)
    (ha : s.ballState.acceleration = ⟨0, 0⟩)
    (hv : s.ballState.velocity.magnitude ≤ s.config.maxVelocity)
    (hdt : deltaTime ≤ 0.016)
    (hnc : (circleHexagonCollision
        (s.ballState.position.add (s.ballState.velocity.multiply deltaTime))
        s.config.ballRadius s.hexagon).isColliding = false) :
    (PhysicsEngine.update s deltaTime rand).ballState.position =
      s.ballState.position.add (s.ballState.velocity.multiply deltaTime) ∧
    (PhysicsEngine.update s deltaTime rand).ballState.velocity =
      s.ballState.velocity := by
  have hmin : min deltaTime 0.016 = deltaTime := min_eq_left hdt
  have hstep : specVelocityStep s.config s.ballState.velocity s.ballState.acceleration
      deltaTime = s.ballState.velocity := by
    ext
    · simp [specVelocityStep, hf, ha]
    · simp [specVelocityStep, hf, hg, ha]
  have hclamp : specClampSpeed s.config.maxVelocity s.ballState.velocity =
      s.ballState.velocity := by
    unfold specClampSpeed
    rw [if_neg (not_lt.mpr hv)]
  have hupd := update_running_eq s deltaTime rand hrun
  rw [hmin, preCollision_eq s deltaTime, hstep, hclamp] at hupd
  rw [handleCollisions_of_far
    { s with ballState :=
        { position := s.ballState.position.add (s.ballState.velocity.multiply deltaTime)
          velocity := s.ballState.velocity
          acceleration := ⟨0, 0⟩ } } rand (by exact hnc)] at hupd
  rw [hupd]
  exact ⟨rfl, rfl⟩

/-- C7 counterexample: a running engine with zero gravity and friction, unit
velocity, and no collision, called with dt = 1, moves the ball by 0.016 (the
clamped timestep), not by velocity * 1 as the claim states. -/
theorem update_pure_integration_cex :
    unitEngine.isRunning = true ∧
    unitEngine.config.gravity = 0 ∧
    unitEngine.config.friction = 0 ∧
    (circleHexagonCollision
      ((PhysicsEngine.update unitEngine 1 (0, 0)).ballState.position)
      unitEngine.config.ballRadius unitEngine.hexagon).isColliding = false ∧
    ¬ ((PhysicsEngine.update unitEngine 1 (0, 0)).ballState.position =
        unitEngine.ballState.position.add (unitEngine.ballState.velocity.multiply 1)) := by
  have hmin : min (1:ℝ) 0.016 = 0.016 := min_eq_right (by norm_num)
  have hstep : specVelocityStep unitEngine.config unitEngine.ballState.velocity
      unitEngine.ballState.acceleration 0.016 = ⟨1, 0⟩ := by
    ext <;> simp [specVelocityStep, unitEngine, baseConfig, unitBall]
  have hclamp : specClampSpeed unitEngine.config.maxVelocity ⟨1, 0⟩ = ⟨1, 0⟩ := by
    unfold specClampSpeed
    rw [if_neg]
    rw [unit_magnitude_one]
    have hmax : unitEngine.config.maxVelocity = 1000 := rfl
    rw [hmax]
    norm_num
  have hpos : unitEngine.ballState.position.add ((Vector2D.mk 1 0).multiply 0.016)
      = ⟨0.016, 0⟩ := by
    ext <;> simp [Vector2D.add, Vector2D.multiply, unitEngine, unitBall]
  have hupd := update_running_eq unitEngine 1 (0, 0) rfl
  rw [hmin, preCollision_eq unitEngine 0.016, hstep, hclamp, hpos] at hupd
  rw [handleCollisions_of_far
    { unitEngine with ballState :=
        { position := ⟨0.016, 0⟩
          velocity := ⟨1, 0⟩
          acceleration := ⟨0, 0⟩ } } (0, 0)
    (by exact farHexagon_noCollision 0.016 1 (by norm_num) (by norm_num))] at hupd
  have hfinal : (PhysicsEngine.update unitEngine 1 (0, 0)).ballState.position
      = ⟨0.016, 0⟩ := by rw [hupd]; rfl
  refine ⟨rfl, rfl, rfl, ?_, ?_⟩
  · rw [hfinal]
    exact farHexagon_noCollision 0.016 1 (by norm_num) (by norm_num)
  · rw [hfinal]
    intro hcontra
    have hx := congrArg Vector2D.x hcontra
    simp [Vector2D.add, Vector2D.multiply, unitEngine, unitBall] at hx
    norm_num at hx

/-- Witness for C7 (amended) on a running engine with unit velocity and dt = 0.01. -/
theorem update_pure_integration_witness :
    (PhysicsEngine.update unitEngine 0.01 (0, 0)).ballState.position =
      unitEngine.ballState.position.add (unitEngine.ballState.velocity.multiply 0.01) ∧
    (PhysicsEngine.update unitEngine 0.01 (0, 0)).ballState.velocity =
      unitEngine.ballState.velocity := by
  have hv : unitEngine.ballState.velocity.magnitude ≤ unitEngine.config.maxVelocity := by
    have h1 : unitEngine.ballState.velocity.magnitude = 1 := unit_magnitude_one
    have hmax : unitEngine.config.maxVelocity = 1000 := rfl
    rw [h1, hmax]
    norm_num
  have hnc : (circleHexagonCollision
      (unitEngine.ballState.position.add (unitEngine.ballState.velocity.multiply 0.01))
      unitEngine.config.ballRadius unitEngine.hexagon).isColliding = false := by
    have hpos : unitEngine.ballState.position.add
        (unitEngine.ballState.velocity.multiply 0.01) = ⟨0.01, 0⟩ := by
      ext <;> simp [Vector2D.add, Vector2D.multiply, unitEngine, unitBall]
    rw [hpos]
    exact farHexagon_noCollision 0.01 1 (by norm_num) (by norm_num)
  exact update_pure_integration unitEngine 0.01 (0, 0) rfl rfl rfl rfl hv
    (by norm_num) hnc

theorem overlapEdge_distanceResult :
    distanceToEdge ⟨0, 1⟩ ⟨-1, 1⟩ ⟨1, 1⟩ =
      { distance := 0, closestPoint := ⟨0, 1⟩, isOnSegment := true } := by
  have hz : ¬ ((Vector2D.mk 1 1).subtract ⟨-1, 1⟩).magnitudeSquared = 0 := by
    norm_num [Vector2D.subtract, Vector2D.magnitudeSquared]
  simp only [distanceToEdge]
  rw [if_neg hz]
  have ht : max 0 (min 1 (((Vector2D.mk 0 1).subtract ⟨-1, 1⟩).dot
      ((Vector2D.mk 1 1).subtract ⟨-1, 1⟩) /
      ((Vector2D.mk 1 1).subtract ⟨-1, 1⟩).magnitudeSquared)) = 1 / 2 := by
    norm_num [Vector2D.subtract, Vector2D.dot, Vector2D.magnitudeSquared, min_def, max_def]
  rw [ht]
  simp only [DistanceResult.mk.injEq]
  refine ⟨?_, ?_, ?_⟩
  · simp only [Vector2D.distance, Vector2D.add, Vector2D.subtract, Vector2D.multiply]
    norm_num
  · ext <;> norm_num [Vector2D.add, Vector2D.subtract, Vector2D.multiply]
  · rw [decide_eq_true_eq]
    norm_num

theorem overlapEdge_edgeDistance : edgeDistance ⟨0, 1⟩ overlapEdge = 0 := by
  simp only [edgeDistance, overlapEdge]
  rw [overlapEdge_distanceResult]

theorem overlapEdge_edgeClosestPoint : edgeClosestPoint ⟨0, 1⟩ overlapEdge = ⟨0, 1⟩ := by
  simp only [edgeClosestPoint, overlapEdge]
  rw [overlapEdge_distanceResult]

theorem overlapHexagon_collision :
    circleHexagonCollision ⟨0, 1⟩ 1 overlapHexagon =
      { isColliding := true, collisionEdge := some overlapEdge
        collisionPoint := some ⟨0, 1⟩, penetrationDepth := some 1 } := by
  unfold circleHexagonCollision
  have hscan : closestEdgeScan ⟨0, 1⟩ overlapHexagon.edges =
      some (overlapEdge, 0, ⟨0, 1⟩) := by
    show List.foldl (scanStep ⟨0, 1⟩) none [overlapEdge] = some (overlapEdge, 0, ⟨0, 1⟩)
    rw [List.foldl_cons, List.foldl_nil, scanStep_none_eq,
      overlapEdge_edgeDistance, overlapEdge_edgeClosestPoint]
  rw [hscan]
  norm_num

theorem mag_30_40 : (Vector2D.mk 30 40).magnitude = 50 := by
  simp only [Vector2D.magnitude]
  rw [show (30:ℝ) * 30 + 40 * 40 = 50 ^ 2 by norm_num,
    Real.sqrt_sq (by norm_num : (0:ℝ) ≤ 50)]

theorem mag_0_100 : (Vector2D.mk 0 100).magnitude = 100 := by
  simp only [Vector2D.magnitude]
  rw [show (0:ℝ) * 0 + 100 * 100 = 100 ^ 2 by norm_num,
    Real.sqrt_sq (by norm_num : (0:ℝ) ≤ 100)]

/-- C10: update(0) leaves position and velocity of a Running engine unchanged when
the speed is within the cap and the ball is strictly clear of every edge; both
hypotheses are necessary: an engine whose ball overlaps an edge, and an engine
whose speed exceeds the cap, each get their velocity changed by update(0), because
collision resolution and the speed clamp run regardless of the timestep. -/
theorem update_zero_dt_spec :
    (∀ (s : PhysicsEngine) (rand : ℝ × ℝ),
      s.isRunning = true →
      s.ballState.velocity.magnitude ≤ s.config.maxVelocity →
      (∀ e ∈ s.hexagon.edges,
        s.config.ballRadius < edgeDistance s.ballState.position e) →
      (PhysicsEngine.update s 0 rand).ballState.position = s.ballState.position ∧
      (PhysicsEngine.update s 0 rand).ballState.velocity = s.ballState.velocity) ∧
    (∃ s : PhysicsEngine, s.isRunning = true ∧
      (∃ e ∈ s.hexagon.edges,
        edgeDistance s.ballState.position e ≤ s.config.ballRadius) ∧
      (PhysicsEngine.update s 0 (0, 0)).ballState.velocity ≠ s.ballState.velocity) ∧
    (∃ s : PhysicsEngine, s.isRunning = true ∧
      s.config.maxVelocity < s.ballState.velocity.magnitude ∧
      (PhysicsEngine.update s 0 (0, 0)).ballState.velocity ≠ s.ballState.velocity) := by
  have hmin0 : min (0:ℝ) 0.016 = 0 := min_eq_left (by norm_num)
  refine ⟨?_, ?_, ?_⟩
  · -- part one: still frame
    intro s rand hrun hv hfar
    have hstep : specVelocityStep s.config s.ballState.velocity s.ballState.acceleration 0
        = s.ballState.velocity := by
      ext <;> simp [specVelocityStep]
    have hclamp : specClampSpeed s.config.maxVelocity s.ballState.velocity =
        s.ballState.velocity := by
      unfold specClampSpeed
      rw [if_neg (not_lt.mpr hv)]
    have hposeq : s.ballState.position.add (s.ballState.velocity.multiply 0) =
        s.ballState.position := by
      ext <;> simp [Vector2D.add, Vector2D.multiply]
    have hupd := update_running_eq s 0 rand hrun
    rw [hmin0, preCollision_eq s 0, hstep, hclamp, hposeq] at hupd
    have hcolfalse := circleHexagonCollision_of_far s.ballState.position
      s.config.ballRadius s.hexagon hfar
    rw [hupd]
    constructor
    · simp only [PhysicsEngine.updateHexagonRotation, PhysicsEngine.handleCollisions]
      simp [hcolfalse]
    · simp only [PhysicsEngine.updateHexagonRotation, PhysicsEngine.handleCollisions]
      simp [hcolfalse]
  · -- part two: ball overlapping an edge
    refine ⟨overlapEngine, rfl,
      ⟨overlapEdge, by simp [overlapEngine, overlapHexagon], ?_⟩, ?_⟩
    · show edgeDistance ⟨0, 1⟩ overlapEdge ≤ (1:ℝ)
      rw [overlapEdge_edgeDistance]
      norm_num
    · have hstep : specVelocityStep overlapEngine.config overlapEngine.ballState.velocity
          overlapEngine.ballState.acceleration 0 = ⟨0, 100⟩ := by
        ext <;> simp [specVelocityStep, overlapEngine, baseConfig, touchingBall]
      have hclamp : specClampSpeed overlapEngine.config.maxVelocity ⟨0, 100⟩ =
          ⟨0, 100⟩ := by
        unfold specClampSpeed
        rw [if_neg]
        rw [mag_0_100]
        have hmax : overlapEngine.config.maxVelocity = 1000 := rfl
        rw [hmax]
        norm_num
      have hposeq : overlapEngine.ballState.position.add
          ((Vector2D.mk 0 100).multiply 0) = ⟨0, 1⟩ := by
        ext <;> simp [Vector2D.add, Vector2D.multiply, overlapEngine, touchingBall]
      have hupd := update_running_eq overlapEngine 0 (0, 0) rfl
      rw [hmin0, preCollision_eq overlapEngine 0, hstep, hclamp, hposeq] at hupd
      have hhex : overlapEngine.hexagon = overlapHexagon := rfl
      have hrad : overlapEngine.config.ballRadius = 1 := rfl
      have hvel : (PhysicsEngine.update overlapEngine 0 (0, 0)).ballState.velocity
          = ⟨0, -100⟩ := by
        rw [hupd]
        simp only [PhysicsEngine.updateHexagonRotation, PhysicsEngine.handleCollisions]
        simp only [hhex, hrad, overlapHexagon_collision]
        have hres1 : overlapEngine.config.restitution = 1 := rfl
        simp only [PhysicsEngine.resolveCollision, overlapEdge, Vector2D.dot,
          Vector2D.multiply, Vector2D.add, Option.getD_some, hres1]
        norm_num [abs_lt]
      rw [hvel]
      intro hcontra
      have hy := congrArg Vector2D.y hcontra
      simp only [overlapEngine, touchingBall] at hy
      norm_num at hy
  · -- part three: speed above the cap
    refine ⟨fastEngine, rfl, ?_, ?_⟩
    · show (5:ℝ) < fastEngine.ballState.velocity.magnitude
      have hm : fastEngine.ballState.velocity.magnitude = 50 := mag_30_40
      rw [hm]
      norm_num
    · have hstep : specVelocityStep fastEngine.config fastEngine.ballState.velocity
          fastEngine.ballState.acceleration 0 = ⟨30, 40⟩ := by
        ext <;> simp [specVelocityStep, fastEngine, capFiveConfig, fastBall]
      have hclamp : specClampSpeed fastEngine.config.maxVelocity ⟨30, 40⟩ = ⟨3, 4⟩ := by
        unfold specClampSpeed
        have hmax : fastEngine.config.maxVelocity = 5 := rfl
        rw [hmax, if_pos]
        · rw [mag_30_40]
          ext <;> norm_num [Vector2D.multiply]
        · rw [mag_30_40]
          norm_num
      have hposeq : fastEngine.ballState.position.add ((Vector2D.mk 3 4).multiply 0)
          = ⟨0, 0⟩ := by
        ext <;> simp [Vector2D.add, Vector2D.multiply, fastEngine, fastBall]
      have hupd := update_running_eq fastEngine 0 (0, 0) rfl
      rw [hmin0, preCollision_eq fastEngine 0, hstep, hclamp, hposeq] at hupd
      have hhex : fastEngine.hexagon = farHexagon := rfl
      have hrad : fastEngine.config.ballRadius = 1 := rfl
      have hcolfalse : (circleHexagonCollision ⟨0, 0⟩ fastEngine.config.ballRadius
          fastEngine.hexagon).isColliding = false := by
        rw [hhex, hrad]
        exact farHexagon_noCollision 0 1 (by norm_num) (by norm_num)
      have hvel : (PhysicsEngine.update fastEngine 0 (0, 0)).ballState.velocity
          = ⟨3, 4⟩ := by
        rw [hupd]
        simp only [PhysicsEngine.updateHexagonRotation, PhysicsEngine.handleCollisions]
        simp [hcolfalse]
      rw [hvel]
      intro hcontra
      have hx := congrArg Vector2D.x hcontra
      simp only [fastEngine, fastBall] at hx
      norm_num at hx

/-- Witness for C10 part one on a concrete running engine with speed 5 under the
cap 10 and the ball 1000 away from the single stored edge. -/
theorem update_zero_dt_spec_witness :
    slowEngine.isRunning = true ∧
    (PhysicsEngine.update slowEngine 0 (0, 0)).ballState.position =
      slowEngine.ballState.position ∧
    (PhysicsEngine.update slowEngine 0 (0, 0)).ballState.velocity =
      slowEngine.ballState.velocity := by
  have hv : slowEngine.ballState.velocity.magnitude ≤ slowEngine.config.maxVelocity := by
    have hm : slowEngine.ballState.velocity.magnitude = 5 := by
      show (Vector2D.mk 3 4).magnitude = 5
      simp only [Vector2D.magnitude]
      rw [show (3:ℝ) * 3 + 4 * 4 = 5 ^ 2 by norm_num,
        Real.sqrt_sq (by norm_num : (0:ℝ) ≤ 5)]
    have hmax : slowEngine.config.maxVelocity = 10 := rfl
    rw [hm, hmax]
    norm_num
  have hfar : ∀ e ∈ slowEngine.hexagon.edges,
      slowEngine.config.ballRadius < edgeDistance slowEngine.ballState.position e := by
    intro e he
    have heq : e = farEdge := by simpa [slowEngine, farHexagon] using he
    rw [heq]
    show (1:ℝ) < edgeDistance ⟨0, 0⟩ farEdge
    rw [farEdge_edgeDistance 0 (by norm_num)]
    norm_num
  obtain ⟨h1, h2⟩ := update_zero_dt_spec.1 slowEngine (0, 0) rfl hv hfar
  exact ⟨rfl, h1, h2⟩
